import Mathlib

/-!
Formalization of the browser FileDialogService
(src/vs/workbench/services/dialogs/browser/fileDialogService.ts).

The service is an adapter from the editor's dialog abstraction onto the
browser's native file pickers.  We embed it shallowly: external
collaborators (the abstract base class, the pickers of the window object,
the opener service, the uuid generator and the simplified fallback) are an
environment of oracle values and functions; the service's observable
behaviour is a pure function of the request, the environment, and a state
holding the uuid-generation counter and the handles registered with the
HTML file system provider.  Side effects are recorded as an event trace.
-/

namespace FileDialog

/-- A URI as built by URI.from: only the scheme and path components are
used by this service. -/
structure URI where
  scheme : String
  path : String
deriving DecidableEq, Repr

/-- An opaque browser file handle; the service only reads its name. -/
structure FileHandle where
  name : String
deriving DecidableEq, Repr

/-- An opaque browser directory handle; the service only reads its name. -/
structure DirectoryHandle where
  name : String
deriving DecidableEq, Repr

/-- Scheme constant Schemas.file from vs/base/common/network.
Modelled from the spec: the network module is outside this slice; the
native-picker schemes are file, vscode-userdata and tmp. -/
def Schemas.file : String := "file"

/-- Scheme constant Schemas.userData from vs/base/common/network.
Modelled from the spec, as for Schemas.file. -/
def Schemas.userData : String := "vscode-userdata"

/-- Scheme constant Schemas.tmp from vs/base/common/network.
Modelled from the spec, as for Schemas.file. -/
def Schemas.tmp : String := "tmp"

/-- Direct translation of FileDialogService.shouldUseSimplified. -/
def shouldUseSimplified (scheme : String) : Bool :=
  ! [Schemas.file, Schemas.userData, Schemas.tmp].contains scheme

/-- The FileFilter shape from vs/platform/dialogs/common/dialogs. -/
structure FileFilter where
  name : String
  extensions : List String
deriving DecidableEq, Repr

/-- A FilePickerAcceptType value handed to the save picker; the accept
record is modelled as an association list (it always has one key). -/
structure FilePickerAcceptType where
  description : String
  accept : List (String × List String)
deriving DecidableEq, Repr

/-- Direct translation of FileDialogService.getFilePickerTypes; the
external getMediaOrTextMime lookup is passed in as a function.  A filter
whose extension list is empty reads extensions[0] as the undefined value,
which the template literal renders as the text undefined. -/
def getFilePickerTypes (getMediaOrTextMime : String → Option String)
    (filters : Option (List FileFilter)) : Option (List FilePickerAcceptType) :=
  filters.map fun fs =>
    (fs.filter fun filter =>
      ! ((filter.extensions.length == 1) &&
         (filter.extensions.headD "" == "*" || filter.extensions.headD "" == ""))).map
      fun filter =>
        let extensions := filter.extensions.filter fun ext =>
          ! ext.contains '-' && ! ext.contains '*' && ! ext.contains '_'
        let firstExt := match filter.extensions with
          | [] => "undefined"
          | e :: _ => e
        let mime := (getMediaOrTextMime ("fileName." ++ firstExt)).getD "text/plain"
        { description := filter.name,
          accept := [(mime, extensions.map fun ext =>
            if ext.startsWith "." then ext else "." ++ ext)] }

/-- The IPickAndOpenOptions fields this service reads or writes. -/
structure PickAndOpenOptions where
  defaultUri : Option URI := none
  availableFileSystems : Option (List String) := none
deriving DecidableEq, Repr

/-- The ISaveDialogOptions fields this service reads. -/
structure SaveDialogOptions where
  defaultUri : Option URI := none
  availableFileSystems : Option (List String) := none
  filters : Option (List FileFilter) := none
deriving DecidableEq, Repr

/-- The IOpenDialogOptions fields this service reads; canSelectFiles is
falsy when absent. -/
structure OpenDialogOptions where
  defaultUri : Option URI := none
  availableFileSystems : Option (List String) := none
  canSelectFiles : Bool := false
  filters : Option (List FileFilter) := none
deriving DecidableEq, Repr

/-- A registration performed on the HTML file system provider. -/
inductive Reg where
  | fileReg (uuid : String) (h : FileHandle)
  | dirReg (uuid : String) (h : DirectoryHandle)
deriving DecidableEq, Repr

/-- The synthetic identifier a registration was filed under. -/
def Reg.uuid : Reg → String
  | Reg.fileReg u _ => u
  | Reg.dirReg u _ => u

/-- Observable side effects of one service call, in program order. -/
inductive Event where
  | simplified (op : String) (schema : String)
  | showOpenFilePicker (multiple : Bool) (types : Option (List FilePickerAcceptType))
  | showSaveFilePicker (types : Option (List FilePickerAcceptType))
  | showDirectoryPicker
  | registerFileHandle (uuid : String) (h : FileHandle)
  | registerDirectoryHandle (uuid : String) (h : DirectoryHandle)
  | openerOpen (uri : URI)
deriving DecidableEq, Repr

/-- Errors the service can throw.  The folder and workspace messages come
from the two localize calls; typeError models the TypeError raised when
the open picker resolves with no handle and handle.name is read. -/
inductive DialogError where
  | cannotOpenFolders
  | cannotOpenWorkspaces
  | typeError
deriving DecidableEq, Repr

/-- External collaborators of the service, all outside this slice.
Modelled from the spec: the abstract base class supplies the schema of a
request and default paths, the simplified fallback supplies its own
results, and the window object supplies what each native picker resolves
with for this call. -/
structure Env where
  getFileSystemSchema : Option (List String) → Option URI → String
  defaultFilePath : String → URI
  defaultFolderPath : String → URI
  defaultWorkspacePath : String → URI
  getWorkspaceAvailableFileSystems : PickAndOpenOptions → List String
  getPickFileToSaveDialogOptions : URI → Option (List String) → SaveDialogOptions
  getMediaOrTextMime : String → Option String
  openFilePickerResult : List FileHandle
  saveFilePickerResult : FileHandle
  directoryPickerResult : DirectoryHandle
  pickFileToSaveSimplifiedResult : Option URI
  showSaveDialogSimplifiedResult : Option URI
  showOpenDialogSimplifiedResult : Option (List URI)

/-- Mutable state threaded through a sequence of service calls: how many
uuids were generated so far and the registrations made on the provider. -/
structure St where
  counter : Nat
  regs : List Reg
deriving DecidableEq, Repr

/-- The initial state: no uuid generated, nothing registered. -/
def St.init : St := { counter := 0, regs := [] }

/-- The external uuid generator.  Modelled from the spec: generateUuid is
outside this slice; it draws the next value from an oracle stream g,
advancing the counter. -/
def generateUuid (g : Nat → String) (st : St) : String × St :=
  (g st.counter, { st with counter := st.counter + 1 })

/-- Result of one of the four pick-and-open operations: the value or
error, the options object after possible defaultUri mutation, the event
trace, and the state after the call. -/
structure PickOut where
  result : Except DialogError Unit
  options : PickAndOpenOptions
  events : List Event
  st : St

/-- Result of pickFileToSave and showSaveDialog. -/
structure SaveOut where
  result : Option URI
  events : List Event
  st : St

/-- Result of showOpenDialog. -/
structure OpenOut where
  result : Option (List URI)
  events : List Event
  st : St

/-- Direct translation of FileDialogService.pickFileFolderAndOpen. -/
def pickFileFolderAndOpen (env : Env) (g : Nat → String)
    (options : PickAndOpenOptions) (st : St) : PickOut :=
  let schema := env.getFileSystemSchema options.availableFileSystems options.defaultUri
  let options := if options.defaultUri.isNone then
      { options with defaultUri := some (env.defaultFilePath schema) }
    else options
  if shouldUseSimplified schema then
    { result := Except.ok (), options := options,
      events := [Event.simplified "pickFileFolderAndOpen" schema], st := st }
  else
    { result := Except.error DialogError.cannotOpenFolders, options := options,
      events := [], st := st }

/-- Direct translation of FileDialogService.pickFileAndOpen.  On the
native path the open picker is shown with multiple false and no types;
the first handle is registered under a fresh uuid and the synthetic URI
is handed to the opener service. -/
def pickFileAndOpen (env : Env) (g : Nat → String)
    (options : PickAndOpenOptions) (st : St) : PickOut :=
  let schema := env.getFileSystemSchema options.availableFileSystems options.defaultUri
  let options := if options.defaultUri.isNone then
      { options with defaultUri := some (env.defaultFilePath schema) }
    else options
  if shouldUseSimplified schema then
    { result := Except.ok (), options := options,
      events := [Event.simplified "pickFileAndOpen" schema], st := st }
  else
    let (uuid, st') := generateUuid g st
    match env.openFilePickerResult with
    | [] =>
      { result := Except.error DialogError.typeError, options := options,
        events := [Event.showOpenFilePicker false none], st := st' }
    | handle :: _ =>
      let uri : URI := { scheme := Schemas.file, path := "/" ++ uuid ++ "/" ++ handle.name }
      { result := Except.ok (), options := options,
        events := [Event.showOpenFilePicker false none,
                   Event.registerFileHandle uuid handle,
                   Event.openerOpen uri],
        st := { st' with regs := st'.regs ++ [Reg.fileReg uuid handle] } }

/-- Direct translation of FileDialogService.pickFolderAndOpen. -/
def pickFolderAndOpen (env : Env) (g : Nat → String)
    (options : PickAndOpenOptions) (st : St) : PickOut :=
  let schema := env.getFileSystemSchema options.availableFileSystems options.defaultUri
  let options := if options.defaultUri.isNone then
      { options with defaultUri := some (env.defaultFolderPath schema) }
    else options
  if shouldUseSimplified schema then
    { result := Except.ok (), options := options,
      events := [Event.simplified "pickFolderAndOpen" schema], st := st }
  else
    { result := Except.error DialogError.cannotOpenFolders, options := options,
      events := [], st := st }

/-- Direct translation of FileDialogService.pickWorkspaceAndOpen: the
available file systems are narrowed first, then the schema is read. -/
def pickWorkspaceAndOpen (env : Env) (g : Nat → String)
    (options : PickAndOpenOptions) (st : St) : PickOut :=
  let options := { options with
    availableFileSystems := some (env.getWorkspaceAvailableFileSystems options) }
  let schema := env.getFileSystemSchema options.availableFileSystems options.defaultUri
  let options := if options.defaultUri.isNone then
      { options with defaultUri := some (env.defaultWorkspacePath schema) }
    else options
  if shouldUseSimplified schema then
    { result := Except.ok (), options := options,
      events := [Event.simplified "pickWorkspaceAndOpen" schema], st := st }
  else
    { result := Except.error DialogError.cannotOpenWorkspaces, options := options,
      events := [], st := st }

/-- Direct translation of FileDialogService.pickFileToSave. -/
def pickFileToSave (env : Env) (g : Nat → String) (defaultUri : URI)
    (availableFileSystems : Option (List String)) (st : St) : SaveOut :=
  let schema := env.getFileSystemSchema availableFileSystems (some defaultUri)
  let options := env.getPickFileToSaveDialogOptions defaultUri availableFileSystems
  if shouldUseSimplified schema then
    { result := env.pickFileToSaveSimplifiedResult,
      events := [Event.simplified "pickFileToSave" schema], st := st }
  else
    let handle := env.saveFilePickerResult
    let (uuid, st') := generateUuid g st
    let uri : URI := { scheme := Schemas.file, path := "/" ++ uuid ++ "/" ++ handle.name }
    { result := some uri,
      events := [Event.showSaveFilePicker
                   (getFilePickerTypes env.getMediaOrTextMime options.filters),
                 Event.registerFileHandle uuid handle],
      st := { st' with regs := st'.regs ++ [Reg.fileReg uuid handle] } }

/-- Direct translation of FileDialogService.showSaveDialog. -/
def showSaveDialog (env : Env) (g : Nat → String)
    (options : SaveDialogOptions) (st : St) : SaveOut :=
  let schema := env.getFileSystemSchema options.availableFileSystems options.defaultUri
  if shouldUseSimplified schema then
    { result := env.showSaveDialogSimplifiedResult,
      events := [Event.simplified "showSaveDialog" schema], st := st }
  else
    let handle := env.saveFilePickerResult
    let (uuid, st') := generateUuid g st
    let uri : URI := { scheme := Schemas.file, path := "/" ++ uuid ++ "/" ++ handle.name }
    { result := some uri,
      events := [Event.showSaveFilePicker
                   (getFilePickerTypes env.getMediaOrTextMime options.filters),
                 Event.registerFileHandle uuid handle],
      st := { st' with regs := st'.regs ++ [Reg.fileReg uuid handle] } }

/-- Direct translation of FileDialogService.showOpenDialog.  On the
native path a uuid is generated first; with canSelectFiles the open
picker is shown and a file handle is registered only when it resolved
with exactly one handle, otherwise the directory picker is shown and its
handle registered.  A URI is returned only when the obtained handle name
is truthy, that is, present and nonempty. -/
def showOpenDialog (env : Env) (g : Nat → String)
    (options : OpenDialogOptions) (st : St) : OpenOut :=
  let schema := env.getFileSystemSchema options.availableFileSystems options.defaultUri
  if shouldUseSimplified schema then
    { result := env.showOpenDialogSimplifiedResult,
      events := [Event.simplified "showOpenDialog" schema], st := st }
  else
    let (uuid, st') := generateUuid g st
    if options.canSelectFiles then
      let pickEv := Event.showOpenFilePicker false
        (getFilePickerTypes env.getMediaOrTextMime options.filters)
      match env.openFilePickerResult with
      | [h0] =>
        let uri : URI := { scheme := Schemas.file, path := "/" ++ uuid ++ "/" ++ h0.name }
        { result := if h0.name = "" then none else some [uri],
          events := [pickEv, Event.registerFileHandle uuid h0],
          st := { st' with regs := st'.regs ++ [Reg.fileReg uuid h0] } }
      | _ =>
        { result := none, events := [pickEv], st := st' }
    else
      let d := env.directoryPickerResult
      let uri : URI := { scheme := Schemas.file, path := "/" ++ uuid ++ "/" ++ d.name }
      { result := if d.name = "" then none else some [uri],
        events := [Event.showDirectoryPicker, Event.registerDirectoryHandle uuid d],
        st := { st' with regs := st'.regs ++ [Reg.dirReg uuid d] } }

/-- The externally-owned HTML file system provider object; its identity
is all the adapter observes. -/
structure HTMLFileSystemProvider where
  providerId : Nat
deriving DecidableEq, Repr

/-- The per-instance state behind the memoize decorator on the
fileSystemProvider accessor. -/
structure ServiceState where
  fileSystemProviderCache : Option HTMLFileSystemProvider
deriving DecidableEq, Repr

/-- A freshly constructed service instance: nothing memoized yet. -/
def ServiceState.fresh : ServiceState := { fileSystemProviderCache := none }

/-- One read of the accessor: the returned provider, the state after the
read, and how many fileService.getProvider lookups the read performed. -/
structure AccessOut where
  value : HTMLFileSystemProvider
  state : ServiceState
  lookups : Nat
deriving DecidableEq, Repr

/-- The fileSystemProvider accessor.  The body is the direct translation
of the getter (fileService.getProvider on Schemas.file); the caching
shell is modelled from the spec: the memoize decorator, outside this
slice, computes the getter once and serves the stored value afterwards. -/
def fileSystemProvider (getProvider : String → HTMLFileSystemProvider)
    (st : ServiceState) : AccessOut :=
  match st.fileSystemProviderCache with
  | some p => { value := p, state := st, lookups := 0 }
  | none =>
    let p := getProvider Schemas.file
    { value := p, state := { fileSystemProviderCache := some p }, lookups := 1 }

/-- n consecutive reads of the accessor: the values read, the final
state, and the total number of underlying lookups performed. -/
def readProviderN (getProvider : String → HTMLFileSystemProvider) :
    Nat → ServiceState → List HTMLFileSystemProvider × ServiceState × Nat
  | 0, st => ([], st, 0)
  | n + 1, st =>
    let o := fileSystemProvider getProvider st
    let r := readProviderN getProvider n o.state
    (o.value :: r.1, r.2.1, o.lookups + r.2.2)

/-- One invocation of a public operation together with the per-call
environment and arguments it was given. -/
inductive Call where
  | pickFileFolderAndOpen (env : Env) (o : PickAndOpenOptions)
  | pickFileAndOpen (env : Env) (o : PickAndOpenOptions)
  | pickFolderAndOpen (env : Env) (o : PickAndOpenOptions)
  | pickWorkspaceAndOpen (env : Env) (o : PickAndOpenOptions)
  | pickFileToSave (env : Env) (defaultUri : URI) (afs : Option (List String))
  | showSaveDialog (env : Env) (o : SaveDialogOptions)
  | showOpenDialog (env : Env) (o : OpenDialogOptions)

/-- The state after executing one call. -/
def Call.step (g : Nat → String) (st : St) : Call → St
  | Call.pickFileFolderAndOpen env o => (FileDialog.pickFileFolderAndOpen env g o st).st
  | Call.pickFileAndOpen env o => (FileDialog.pickFileAndOpen env g o st).st
  | Call.pickFolderAndOpen env o => (FileDialog.pickFolderAndOpen env g o st).st
  | Call.pickWorkspaceAndOpen env o => (FileDialog.pickWorkspaceAndOpen env g o st).st
  | Call.pickFileToSave env du afs => (FileDialog.pickFileToSave env g du afs st).st
  | Call.showSaveDialog env o => (FileDialog.showSaveDialog env g o st).st
  | Call.showOpenDialog env o => (FileDialog.showOpenDialog env g o st).st

/-- The state after a sequence of completed operations. -/
def run (g : Nat → String) : List Call → St → St
  | [], st => st
  | c :: cs, st => run g cs (Call.step g st c)

/-- The public operations the FileDialogService class exposes, one
constructor per public method of the source class. -/
inductive PublicOperation where
  | pickFileFolderAndOpen
  | pickFileAndOpen
  | pickFolderAndOpen
  | pickWorkspaceAndOpen
  | pickFileToSave
  | showSaveDialog
  | showOpenDialog
deriving DecidableEq, Repr

/-- The seven public operations, listed. -/
def publicOperations : List PublicOperation :=
  [PublicOperation.pickFileFolderAndOpen, PublicOperation.pickFileAndOpen,
   PublicOperation.pickFolderAndOpen, PublicOperation.pickWorkspaceAndOpen,
   PublicOperation.pickFileToSave, PublicOperation.showSaveDialog,
   PublicOperation.showOpenDialog]

/-- Modelled from the spec: the operation set the spec names, pick-file,
pick-folder, pick-workspace, save-dialog, open-dialog. -/
inductive SpecOperation where
  | pickFile
  | pickFolder
  | pickWorkspace
  | saveDialog
  | openDialog
deriving DecidableEq, Repr

/-- The natural classification of each public method under the spec's
five operations: pickFileToSave and showSaveDialog are both save-dialog
entry points; pickFileFolderAndOpen, a combined file-or-folder pick, is
none of the five. -/
def specOperationOf : PublicOperation → Option SpecOperation
  | PublicOperation.pickFileFolderAndOpen => none
  | PublicOperation.pickFileAndOpen => some SpecOperation.pickFile
  | PublicOperation.pickFolderAndOpen => some SpecOperation.pickFolder
  | PublicOperation.pickWorkspaceAndOpen => some SpecOperation.pickWorkspace
  | PublicOperation.pickFileToSave => some SpecOperation.saveDialog
  | PublicOperation.showSaveDialog => some SpecOperation.saveDialog
  | PublicOperation.showOpenDialog => some SpecOperation.openDialog

/-- A concrete uuid oracle used in witnesses: distinct indices give
strings of distinct lengths. -/
def gW : Nat → String := fun n => String.mk (List.replicate n 'a')

/-- A concrete environment used in witnesses and counterexamples: every
request resolves to the file scheme and the pickers resolve with named
handles. -/
def env0 : Env :=
  { getFileSystemSchema := fun _ _ => Schemas.file,
    defaultFilePath := fun s => { scheme := s, path := "/default-file" },
    defaultFolderPath := fun s => { scheme := s, path := "/default-folder" },
    defaultWorkspacePath := fun s => { scheme := s, path := "/default-workspace" },
    getWorkspaceAvailableFileSystems := fun _ => [Schemas.file],
    getPickFileToSaveDialogOptions := fun du afs =>
      { defaultUri := some du, availableFileSystems := afs, filters := none },
    getMediaOrTextMime := fun _ => none,
    openFilePickerResult := [{ name := "picked.txt" }],
    saveFilePickerResult := { name := "saved.txt" },
    directoryPickerResult := { name := "projects" },
    pickFileToSaveSimplifiedResult := none,
    showSaveDialogSimplifiedResult := none,
    showOpenDialogSimplifiedResult := none }

/-- env0 with a directory handle whose name is the empty string. -/
def envEmptyDirName : Env :=
  { env0 with directoryPickerResult := { name := "" } }

/-- The handle name showOpenDialog obtains on the native path: the
single file handle's name when files are selectable, the directory
handle's name otherwise. -/
def obtainedHandleName (env : Env) (options : OpenDialogOptions) : Option String :=
  if options.canSelectFiles then
    match env.openFilePickerResult with
    | [h0] => some h0.name
    | _ => none
  else some env.directoryPickerResult.name

/-- Invariant tying every registered uuid to an already consumed index of
the uuid oracle, with no duplicates among the registered uuids. -/
def UuidInv (g : Nat → String) (st : St) : Prop :=
  (st.regs.map Reg.uuid).Nodup ∧
  ∀ r ∈ st.regs, ∃ k, k < st.counter ∧ r.uuid = g k

/-- A concrete provider lookup used in witnesses and counterexamples. -/
def gpW : String → HTMLFileSystemProvider := fun _ => { providerId := 7 }

/-- The event trace of one call. -/
def Call.events (g : Nat → String) (st : St) : Call → List Event
  | Call.pickFileFolderAndOpen env o => (FileDialog.pickFileFolderAndOpen env g o st).events
  | Call.pickFileAndOpen env o => (FileDialog.pickFileAndOpen env g o st).events
  | Call.pickFolderAndOpen env o => (FileDialog.pickFolderAndOpen env g o st).events
  | Call.pickWorkspaceAndOpen env o => (FileDialog.pickWorkspaceAndOpen env g o st).events
  | Call.pickFileToSave env du afs => (FileDialog.pickFileToSave env g du afs st).events
  | Call.showSaveDialog env o => (FileDialog.showSaveDialog env g o st).events
  | Call.showOpenDialog env o => (FileDialog.showOpenDialog env g o st).events

/-- The caller-visible result of one call, injected into a common type. -/
inductive CallResult where
  | pick (r : Except DialogError Unit)
  | save (r : Option URI)
  | openD (r : Option (List URI))

/-- The result of one call. -/
def Call.result (g : Nat → String) (st : St) : Call → CallResult
  | Call.pickFileFolderAndOpen env o =>
    CallResult.pick (FileDialog.pickFileFolderAndOpen env g o st).result
  | Call.pickFileAndOpen env o =>
    CallResult.pick (FileDialog.pickFileAndOpen env g o st).result
  | Call.pickFolderAndOpen env o =>
    CallResult.pick (FileDialog.pickFolderAndOpen env g o st).result
  | Call.pickWorkspaceAndOpen env o =>
    CallResult.pick (FileDialog.pickWorkspaceAndOpen env g o st).result
  | Call.pickFileToSave env du afs =>
    CallResult.save (FileDialog.pickFileToSave env g du afs st).result
  | Call.showSaveDialog env o =>
    CallResult.save (FileDialog.showSaveDialog env g o st).result
  | Call.showOpenDialog env o =>
    CallResult.openD (FileDialog.showOpenDialog env g o st).result

/-- A concrete URI used in witnesses. -/
def uW : URI := { scheme := "file", path := "/workspace-file.txt" }

/-- Concrete pick options whose defaultUri is already set. -/
def oW : PickAndOpenOptions := { defaultUri := some uW }

theorem shouldUseSimplified_eq_false_iff (s : String) :
    shouldUseSimplified s = false ↔
      s ∈ [Schemas.file, Schemas.userData, Schemas.tmp] := by
  simp [shouldUseSimplified]
  tauto

theorem shouldUseSimplified_eq_true_iff (s : String) :
    shouldUseSimplified s = true ↔
      s ∉ [Schemas.file, Schemas.userData, Schemas.tmp] := by
  simp [shouldUseSimplified]

theorem readProviderN_cached (gp : String → HTMLFileSystemProvider)
    (p : HTMLFileSystemProvider) :
    ∀ n, readProviderN gp n { fileSystemProviderCache := some p } =
      (List.replicate n p, { fileSystemProviderCache := some p }, 0)
  | 0 => rfl
  | n + 1 => by
    simp [readProviderN, fileSystemProvider, readProviderN_cached gp p n,
      List.replicate]

/-- Each call either registers nothing while the counter does not
decrease, or appends exactly one registration filed under the uuid drawn
at the call's entry counter, advancing the counter by one. -/
theorem step_spec (g : Nat → String) (st : St) (c : Call) :
    ((Call.step g st c).regs = st.regs ∧ st.counter ≤ (Call.step g st c).counter) ∨
    ∃ r, (Call.step g st c).regs = st.regs ++ [r] ∧ r.uuid = g st.counter ∧
      (Call.step g st c).counter = st.counter + 1 := by
  cases c with
  | pickFileFolderAndOpen env o =>
    left
    by_cases h : shouldUseSimplified
        (env.getFileSystemSchema o.availableFileSystems o.defaultUri) <;>
      simp [Call.step, pickFileFolderAndOpen, h]
  | pickFileAndOpen env o =>
    by_cases h : shouldUseSimplified
        (env.getFileSystemSchema o.availableFileSystems o.defaultUri)
    · left; simp [Call.step, pickFileAndOpen, h]
    · cases henv : env.openFilePickerResult with
      | nil =>
        left
        simp [Call.step, pickFileAndOpen, h, henv, generateUuid]
      | cons hd tl =>
        right
        exact ⟨Reg.fileReg (g st.counter) hd,
          by simp [Call.step, pickFileAndOpen, h, henv, generateUuid, Reg.uuid]⟩
  | pickFolderAndOpen env o =>
    left
    by_cases h : shouldUseSimplified
        (env.getFileSystemSchema o.availableFileSystems o.defaultUri) <;>
      simp [Call.step, pickFolderAndOpen, h]
  | pickWorkspaceAndOpen env o =>
    left
    by_cases h : shouldUseSimplified
        (env.getFileSystemSchema (some (env.getWorkspaceAvailableFileSystems o))
          o.defaultUri) <;>
      simp [Call.step, pickWorkspaceAndOpen, h]
  | pickFileToSave env du afs =>
    by_cases h : shouldUseSimplified (env.getFileSystemSchema afs (some du))
    · left; simp [Call.step, pickFileToSave, h]
    · right
      exact ⟨Reg.fileReg (g st.counter) env.saveFilePickerResult,
        by simp [Call.step, pickFileToSave, h, generateUuid, Reg.uuid]⟩
  | showSaveDialog env o =>
    by_cases h : shouldUseSimplified
        (env.getFileSystemSchema o.availableFileSystems o.defaultUri)
    · left; simp [Call.step, showSaveDialog, h]
    · right
      exact ⟨Reg.fileReg (g st.counter) env.saveFilePickerResult,
        by simp [Call.step, showSaveDialog, h, generateUuid, Reg.uuid]⟩
  | showOpenDialog env o =>
    by_cases h : shouldUseSimplified
        (env.getFileSystemSchema o.availableFileSystems o.defaultUri)
    · left; simp [Call.step, showOpenDialog, h]
    · by_cases hc : o.canSelectFiles
      · match henv : env.openFilePickerResult with
        | [h0] =>
          right
          exact ⟨Reg.fileReg (g st.counter) h0,
            by simp [Call.step, showOpenDialog, h, hc, henv, generateUuid, Reg.uuid]⟩
        | [] =>
          left
          simp [Call.step, showOpenDialog, h, hc, henv, generateUuid]
        | h0 :: h1 :: t =>
          left
          simp [Call.step, showOpenDialog, h, hc, henv, generateUuid]
      · right
        exact ⟨Reg.dirReg (g st.counter) env.directoryPickerResult,
          by simp [Call.step, showOpenDialog, h, hc, generateUuid, Reg.uuid]⟩

theorem step_preserves_uuidInv (g : Nat → String) (hg : Function.Injective g)
    (st : St) (c : Call) (h : UuidInv g st) : UuidInv g (Call.step g st c) := by
  rcases step_spec g st c with ⟨hr, hcnt⟩ | ⟨r, hr, hu, hcnt⟩
  · refine ⟨hr ▸ h.1, fun x hx => ?_⟩
    rcases h.2 x (hr ▸ hx) with ⟨k, hk, hxk⟩
    exact ⟨k, lt_of_lt_of_le hk hcnt, hxk⟩
  · constructor
    · rw [hr, List.map_append, List.nodup_append]
      refine ⟨h.1, List.nodup_singleton _, fun u hu1 hu2 => ?_⟩
      simp only [List.map_cons, List.map_nil, List.mem_singleton] at hu2
      rcases List.mem_map.mp hu1 with ⟨x, hx, hxu⟩
      rcases h.2 x hx with ⟨k, hk, hxk⟩
      have : g k = g st.counter := by rw [← hxk, hxu, hu2, hu]
      exact absurd (hg this) (Nat.ne_of_lt hk)
    · intro x hx
      rw [hr] at hx
      rcases List.mem_append.mp hx with hx1 | hx1
      · rcases h.2 x hx1 with ⟨k, hk, hxk⟩
        exact ⟨k, by omega, hxk⟩
      · rcases List.mem_singleton.mp hx1 with rfl
        exact ⟨st.counter, by omega, hu⟩

theorem run_preserves_uuidInv (g : Nat → String) (hg : Function.Injective g) :
    ∀ (calls : List Call) (st : St), UuidInv g st → UuidInv g (run g calls st)
  | [], _, h => h
  | c :: cs, st, h =>
    run_preserves_uuidInv g hg cs (Call.step g st c)
      (step_preserves_uuidInv g hg st c h)

/-- C2: every operation delegates to the simplified fallback exactly when
the request's file-system schema is none of the native-picker schemes,
which are the strings file, vscode-userdata and tmp. -/
theorem simplifiedDelegationIffNonNativeSchema (env : Env) (g : Nat → String)
    (o : PickAndOpenOptions) (so : SaveDialogOptions) (oo : OpenDialogOptions)
    (du : URI) (afs : Option (List String)) (st : St) :
    (Schemas.file = "file" ∧ Schemas.userData = "vscode-userdata" ∧
      Schemas.tmp = "tmp") ∧
    (∀ s, shouldUseSimplified s = true ↔
      s ∉ [Schemas.file, Schemas.userData, Schemas.tmp]) ∧
    ((Event.simplified "pickFileFolderAndOpen"
        (env.getFileSystemSchema o.availableFileSystems o.defaultUri) ∈
        (pickFileFolderAndOpen env g o st).events) ↔
      shouldUseSimplified
        (env.getFileSystemSchema o.availableFileSystems o.defaultUri) = true) ∧
    ((Event.simplified "pickFileAndOpen"
        (env.getFileSystemSchema o.availableFileSystems o.defaultUri) ∈
        (pickFileAndOpen env g o st).events) ↔
      shouldUseSimplified
        (env.getFileSystemSchema o.availableFileSystems o.defaultUri) = true) ∧
    ((Event.simplified "pickFolderAndOpen"
        (env.getFileSystemSchema o.availableFileSystems o.defaultUri) ∈
        (pickFolderAndOpen env g o st).events) ↔
      shouldUseSimplified
        (env.getFileSystemSchema o.availableFileSystems o.defaultUri) = true) ∧
    ((Event.simplified "pickWorkspaceAndOpen"
        (env.getFileSystemSchema (some (env.getWorkspaceAvailableFileSystems o))
          o.defaultUri) ∈
        (pickWorkspaceAndOpen env g o st).events) ↔
      shouldUseSimplified
        (env.getFileSystemSchema (some (env.getWorkspaceAvailableFileSystems o))
          o.defaultUri) = true) ∧
    ((Event.simplified "pickFileToSave"
        (env.getFileSystemSchema afs (some du)) ∈
        (pickFileToSave env g du afs st).events) ↔
      shouldUseSimplified (env.getFileSystemSchema afs (some du)) = true) ∧
    ((Event.simplified "showSaveDialog"
        (env.getFileSystemSchema so.availableFileSystems so.defaultUri) ∈
        (showSaveDialog env g so st).events) ↔
      shouldUseSimplified
        (env.getFileSystemSchema so.availableFileSystems so.defaultUri) = true) ∧
    ((Event.simplified "showOpenDialog"
        (env.getFileSystemSchema oo.availableFileSystems oo.defaultUri) ∈
        (showOpenDialog env g oo st).events) ↔
      shouldUseSimplified
        (env.getFileSystemSchema oo.availableFileSystems oo.defaultUri) = true) := by
  refine ⟨⟨rfl, rfl, rfl⟩, shouldUseSimplified_eq_true_iff, ?_, ?_, ?_, ?_, ?_, ?_, ?_⟩
  · by_cases h : shouldUseSimplified
        (env.getFileSystemSchema o.availableFileSystems o.defaultUri) <;>
      simp [pickFileFolderAndOpen, h]
  · by_cases h : shouldUseSimplified
        (env.getFileSystemSchema o.availableFileSystems o.defaultUri)
    · simp [pickFileAndOpen, h]
    · cases henv : env.openFilePickerResult <;>
        simp [pickFileAndOpen, h, henv, generateUuid]
  · by_cases h : shouldUseSimplified
        (env.getFileSystemSchema o.availableFileSystems o.defaultUri) <;>
      simp [pickFolderAndOpen, h]
  · by_cases h : shouldUseSimplified
        (env.getFileSystemSchema (some (env.getWorkspaceAvailableFileSystems o))
          o.defaultUri) <;>
      simp [pickWorkspaceAndOpen, h]
  · by_cases h : shouldUseSimplified (env.getFileSystemSchema afs (some du)) <;>
      simp [pickFileToSave, h, generateUuid]
  · by_cases h : shouldUseSimplified
        (env.getFileSystemSchema so.availableFileSystems so.defaultUri) <;>
      simp [showSaveDialog, h, generateUuid]
  · by_cases h : shouldUseSimplified
        (env.getFileSystemSchema oo.availableFileSystems oo.defaultUri)
    · simp [showOpenDialog, h]
    · by_cases hc : oo.canSelectFiles
      · match henv : env.openFilePickerResult with
        | [] => simp [showOpenDialog, h, hc, henv, generateUuid]
        | [h0] => simp [showOpenDialog, h, hc, henv, generateUuid]
        | h0 :: h1 :: t => simp [showOpenDialog, h, hc, henv, generateUuid]
      · simp [showOpenDialog, h, hc, generateUuid]

/-- C3: across any sequence of completed operations, every registration
made on the file system provider uses a synthetic identifier distinct
from every other registration's identifier, given that the uuid
generator never repeats a value. -/
theorem registeredHandleUuidsAllDistinct (g : Nat → String)
    (hg : Function.Injective g) (calls : List Call) :
    ((run g calls St.init).regs.map Reg.uuid).Nodup :=
  (run_preserves_uuidInv g hg calls St.init
    ⟨by simp [St.init], by simp [St.init]⟩).1

/-- Witness for C3: a concrete injective uuid oracle and a concrete
three-call sequence that registers three handles. -/
theorem registeredHandleUuidsAllDistinctWitness :
    ((run gW [Call.pickFileAndOpen env0 {}, Call.showSaveDialog env0 {},
        Call.showOpenDialog env0 {}] St.init).regs.map Reg.uuid).Nodup := by
  have hg : Function.Injective gW := by
    intro a b hab
    have hlen := congrArg (fun s => s.data.length) hab
    simpa [gW] using hlen
  exact registeredHandleUuidsAllDistinct gW hg
    [Call.pickFileAndOpen env0 {}, Call.showSaveDialog env0 {},
     Call.showOpenDialog env0 {}]

/-- C4: when the request's schema is a native-picker scheme, each of
pickFileFolderAndOpen, pickFolderAndOpen and pickWorkspaceAndOpen throws
without emitting any event or touching the registration state. -/
theorem folderAndWorkspacePicksThrowOnNativeSchema (env : Env)
    (g : Nat → String) (o : PickAndOpenOptions) (st : St)
    (h1 : env.getFileSystemSchema o.availableFileSystems o.defaultUri ∈
      [Schemas.file, Schemas.userData, Schemas.tmp])
    (h2 : env.getFileSystemSchema (some (env.getWorkspaceAvailableFileSystems o))
      o.defaultUri ∈ [Schemas.file, Schemas.userData, Schemas.tmp]) :
    ((pickFileFolderAndOpen env g o st).result =
        Except.error DialogError.cannotOpenFolders ∧
      (pickFileFolderAndOpen env g o st).events = [] ∧
      (pickFileFolderAndOpen env g o st).st = st) ∧
    ((pickFolderAndOpen env g o st).result =
        Except.error DialogError.cannotOpenFolders ∧
      (pickFolderAndOpen env g o st).events = [] ∧
      (pickFolderAndOpen env g o st).st = st) ∧
    ((pickWorkspaceAndOpen env g o st).result =
        Except.error DialogError.cannotOpenWorkspaces ∧
      (pickWorkspaceAndOpen env g o st).events = [] ∧
      (pickWorkspaceAndOpen env g o st).st = st) := by
  have hs1 : shouldUseSimplified
      (env.getFileSystemSchema o.availableFileSystems o.defaultUri) = false :=
    (shouldUseSimplified_eq_false_iff _).mpr h1
  have hs2 : shouldUseSimplified
      (env.getFileSystemSchema (some (env.getWorkspaceAvailableFileSystems o))
        o.defaultUri) = false :=
    (shouldUseSimplified_eq_false_iff _).mpr h2
  refine ⟨?_, ?_, ?_⟩ <;>
    simp [pickFileFolderAndOpen, pickFolderAndOpen, pickWorkspaceAndOpen, hs1, hs2]

/-- Witness for C4 at the concrete environment env0, whose requests all
resolve to the file scheme. -/
theorem folderAndWorkspacePicksThrowOnNativeSchemaWitness :
    ((pickFileFolderAndOpen env0 gW {} St.init).result =
        Except.error DialogError.cannotOpenFolders ∧
      (pickFileFolderAndOpen env0 gW {} St.init).events = [] ∧
      (pickFileFolderAndOpen env0 gW {} St.init).st = St.init) ∧
    ((pickFolderAndOpen env0 gW {} St.init).result =
        Except.error DialogError.cannotOpenFolders ∧
      (pickFolderAndOpen env0 gW {} St.init).events = [] ∧
      (pickFolderAndOpen env0 gW {} St.init).st = St.init) ∧
    ((pickWorkspaceAndOpen env0 gW {} St.init).result =
        Except.error DialogError.cannotOpenWorkspaces ∧
      (pickWorkspaceAndOpen env0 gW {} St.init).events = [] ∧
      (pickWorkspaceAndOpen env0 gW {} St.init).st = St.init) :=
  folderAndWorkspacePicksThrowOnNativeSchema env0 gW {} St.init
    (by decide) (by decide)

/-- C5: the fileSystemProvider accessor is memoized: any number of reads
from a fresh service instance all yield the provider the file-scheme
lookup returns, and the underlying getProvider lookup runs at most once. -/
theorem fileSystemProviderAccessorMemoized
    (gp : String → HTMLFileSystemProvider) (n : Nat) :
    (readProviderN gp n ServiceState.fresh).1 =
      List.replicate n (gp Schemas.file) ∧
    (readProviderN gp n ServiceState.fresh).2.2 ≤ 1 := by
  cases n with
  | zero => simp [readProviderN]
  | succ m =>
    simp [readProviderN, fileSystemProvider, ServiceState.fresh,
      readProviderN_cached, List.replicate]

/-- C6 counterexample: reading the fileSystemProvider accessor twice
performs the underlying fileService.getProvider lookup only once; the
second read reuses the value stored by the first instead of recomputing
it, so the adapter does cache one externally obtained value. -/
theorem providerSecondAccessReusesCachedValueCex :
    (readProviderN gpW 2 ServiceState.fresh).2.2 = 1 ∧
    ¬ (readProviderN gpW 2 ServiceState.fresh).2.2 = 2 := by
  decide

/-- C6 amended: apart from the memoized fileSystemProvider accessor the
adapter stores nothing between calls: every operation's result and event
trace depend only on that call's own inputs and the uuid counter, never
on the registrations accumulated by earlier calls, and each call only
appends to the accumulated registrations. -/
theorem dialogOperationsIndependentOfAccumulatedState (g : Nat → String)
    (c : Call) (n : Nat) (r : List Reg) :
    Call.result g { counter := n, regs := r } c =
      Call.result g { counter := n, regs := [] } c ∧
    Call.events g { counter := n, regs := r } c =
      Call.events g { counter := n, regs := [] } c ∧
    (Call.step g { counter := n, regs := r } c).counter =
      (Call.step g { counter := n, regs := [] } c).counter ∧
    (Call.step g { counter := n, regs := r } c).regs =
      r ++ (Call.step g { counter := n, regs := [] } c).regs := by
  cases c with
  | pickFileFolderAndOpen env o =>
    by_cases h : shouldUseSimplified
        (env.getFileSystemSchema o.availableFileSystems o.defaultUri) <;>
      simp [Call.result, Call.events, Call.step, pickFileFolderAndOpen, h]
  | pickFileAndOpen env o =>
    by_cases h : shouldUseSimplified
        (env.getFileSystemSchema o.availableFileSystems o.defaultUri)
    · simp [Call.result, Call.events, Call.step, pickFileAndOpen, h]
    · cases henv : env.openFilePickerResult <;>
        simp [Call.result, Call.events, Call.step, pickFileAndOpen, h, henv,
          generateUuid]
  | pickFolderAndOpen env o =>
    by_cases h : shouldUseSimplified
        (env.getFileSystemSchema o.availableFileSystems o.defaultUri) <;>
      simp [Call.result, Call.events, Call.step, pickFolderAndOpen, h]
  | pickWorkspaceAndOpen env o =>
    by_cases h : shouldUseSimplified
        (env.getFileSystemSchema (some (env.getWorkspaceAvailableFileSystems o))
          o.defaultUri) <;>
      simp [Call.result, Call.events, Call.step, pickWorkspaceAndOpen, h]
  | pickFileToSave env du afs =>
    by_cases h : shouldUseSimplified (env.getFileSystemSchema afs (some du)) <;>
      simp [Call.result, Call.events, Call.step, pickFileToSave, h, generateUuid]
  | showSaveDialog env o =>
    by_cases h : shouldUseSimplified
        (env.getFileSystemSchema o.availableFileSystems o.defaultUri) <;>
      simp [Call.result, Call.events, Call.step, showSaveDialog, h, generateUuid]
  | showOpenDialog env o =>
    by_cases h : shouldUseSimplified
        (env.getFileSystemSchema o.availableFileSystems o.defaultUri)
    · simp [Call.result, Call.events, Call.step, showOpenDialog, h]
    · by_cases hc : o.canSelectFiles
      · match henv : env.openFilePickerResult with
        | [] =>
          simp [Call.result, Call.events, Call.step, showOpenDialog, h, hc,
            henv, generateUuid]
        | [h0] =>
          simp [Call.result, Call.events, Call.step, showOpenDialog, h, hc,
            henv, generateUuid]
        | h0 :: h1 :: t =>
          simp [Call.result, Call.events, Call.step, showOpenDialog, h, hc,
            henv, generateUuid]
      · simp [Call.result, Call.events, Call.step, showOpenDialog, h, hc,
          generateUuid]

/-- C8: each of the four pick operations leaves an already-present
options.defaultUri unchanged; a default path can be assigned only when
the field was absent on entry. -/
theorem pickOperationsPreserveDefaultUri (env : Env) (g : Nat → String)
    (o : PickAndOpenOptions) (st : St) (u : URI) (h : o.defaultUri = some u) :
    (pickFileFolderAndOpen env g o st).options.defaultUri = some u ∧
    (pickFileAndOpen env g o st).options.defaultUri = some u ∧
    (pickFolderAndOpen env g o st).options.defaultUri = some u ∧
    (pickWorkspaceAndOpen env g o st).options.defaultUri = some u := by
  refine ⟨?_, ?_, ?_, ?_⟩
  · simp [pickFileFolderAndOpen, h]
    split <;> simp [h]
  · simp [pickFileAndOpen, h, generateUuid]
    split
    · simp [h]
    · split <;> simp [h]
  · simp [pickFolderAndOpen, h]
    split <;> simp [h]
  · simp [pickWorkspaceAndOpen, h]
    split <;> simp [h]

/-- Witness for C8: options carrying a concrete defaultUri pass through
all four pick operations unchanged. -/
theorem pickOperationsPreserveDefaultUriWitness :
    (pickFileFolderAndOpen env0 gW oW St.init).options.defaultUri = some uW ∧
    (pickFileAndOpen env0 gW oW St.init).options.defaultUri = some uW ∧
    (pickFolderAndOpen env0 gW oW St.init).options.defaultUri = some uW ∧
    (pickWorkspaceAndOpen env0 gW oW St.init).options.defaultUri = some uW :=
  pickOperationsPreserveDefaultUri env0 gW oW St.init uW rfl

/-- C7 counterexample: with the directory picker resolving to a handle
whose name is the empty string, showOpenDialog registers that directory
handle, so a handle name was obtained, and still returns none: the
empty name is falsy, refuting the claim's exactly-when clause. -/
theorem showOpenDialogEmptyDirNameCex :
    (showOpenDialog envEmptyDirName gW {} St.init).result = none ∧
    (showOpenDialog envEmptyDirName gW {} St.init).st.regs =
      [Reg.dirReg (gW 0) { name := "" }] ∧
    obtainedHandleName envEmptyDirName {} = some "" := by
  decide

/-- C7 amended: on the native path showOpenDialog returns either none or
a singleton list holding one file-scheme URI whose path is the fresh
uuid followed by the obtained handle name; with canSelectFiles it
registers a file handle exactly when the file picker resolved with
exactly one handle, and otherwise registers the directory picker's
handle; it returns none exactly when the obtained handle name is missing
or is the empty string. -/
theorem showOpenDialogNativeShape (env : Env) (g : Nat → String)
    (oo : OpenDialogOptions) (st : St)
    (hs : shouldUseSimplified
      (env.getFileSystemSchema oo.availableFileSystems oo.defaultUri) = false) :
    ((showOpenDialog env g oo st).result = none ↔
      (obtainedHandleName env oo).getD "" = "") ∧
    (∀ uris, (showOpenDialog env g oo st).result = some uris →
      ∃ nm, obtainedHandleName env oo = some nm ∧ nm ≠ "" ∧
        uris = [{ scheme := Schemas.file,
                  path := "/" ++ g st.counter ++ "/" ++ nm }]) ∧
    (oo.canSelectFiles = true →
      ((∃ h0, env.openFilePickerResult = [h0] ∧
          (showOpenDialog env g oo st).st.regs =
            st.regs ++ [Reg.fileReg (g st.counter) h0]) ∨
       (env.openFilePickerResult.length ≠ 1 ∧
          (showOpenDialog env g oo st).st.regs = st.regs))) ∧
    (oo.canSelectFiles = false →
      (showOpenDialog env g oo st).st.regs =
        st.regs ++ [Reg.dirReg (g st.counter) env.directoryPickerResult]) := by
  have hs' : shouldUseSimplified
      (env.getFileSystemSchema oo.availableFileSystems oo.defaultUri) ≠ true := by
    simp [hs]
  by_cases hc : oo.canSelectFiles
  · match henv : env.openFilePickerResult with
    | [] =>
      simp [showOpenDialog, obtainedHandleName, hs', hc, henv, generateUuid]
    | [h0] =>
      by_cases hn : h0.name = "" <;>
        simp [showOpenDialog, obtainedHandleName, hs', hc, henv, generateUuid, hn]
    | h0 :: h1 :: t =>
      simp [showOpenDialog, obtainedHandleName, hs', hc, henv, generateUuid]
  · by_cases hn : env.directoryPickerResult.name = "" <;>
      simp [showOpenDialog, obtainedHandleName, hs', hc, generateUuid, hn]

/-- Witness for C7 on the directory branch of the concrete environment
env0, whose request resolves to the file scheme. -/
theorem showOpenDialogNativeShapeWitness :
    (((showOpenDialog env0 gW {} St.init).result = none ↔
      (obtainedHandleName env0 {}).getD "" = "") ∧
    (∀ uris, (showOpenDialog env0 gW {} St.init).result = some uris →
      ∃ nm, obtainedHandleName env0 {} = some nm ∧ nm ≠ "" ∧
        uris = [{ scheme := Schemas.file,
                  path := "/" ++ gW St.init.counter ++ "/" ++ nm }]) ∧
    (({} : OpenDialogOptions).canSelectFiles = true →
      ((∃ h0, env0.openFilePickerResult = [h0] ∧
          (showOpenDialog env0 gW {} St.init).st.regs =
            St.init.regs ++ [Reg.fileReg (gW St.init.counter) h0]) ∨
       (env0.openFilePickerResult.length ≠ 1 ∧
          (showOpenDialog env0 gW {} St.init).st.regs = St.init.regs))) ∧
    (({} : OpenDialogOptions).canSelectFiles = false →
      (showOpenDialog env0 gW {} St.init).st.regs =
        St.init.regs ++ [Reg.dirReg (gW St.init.counter) env0.directoryPickerResult])) :=
  showOpenDialogNativeShape env0 gW {} St.init (by decide)

/-- C1 counterexample: a request that resolves to the native file scheme
makes pickFileFolderAndOpen skip the simplified fallback, yet the
operation invokes no native picker and registers no handle: it throws. -/
theorem nativeSchemaOperationWithoutPickerCex :
    shouldUseSimplified (env0.getFileSystemSchema none none) = false ∧
    (pickFileFolderAndOpen env0 gW {} St.init).events = [] ∧
    (pickFileFolderAndOpen env0 gW {} St.init).result =
      Except.error DialogError.cannotOpenFolders ∧
    (pickFileFolderAndOpen env0 gW {} St.init).st.regs = [] := by
  refine ⟨by decide, rfl, rfl, rfl⟩

/-- C1 amended: on the native path the file-targeting operations invoke
the browser's native picker and register the resulting handle under a
freshly generated uuid; pickFileToSave and showSaveDialog return the
synthetic URI built from that uuid and the handle name to the caller,
while pickFileAndOpen hands it to the opener service; the folder and
workspace pick operations never reach a native picker. -/
theorem nativePathRegistersFreshUuidAndYieldsUri (env : Env)
    (g : Nat → String) (o : PickAndOpenOptions) (so : SaveDialogOptions)
    (du : URI) (afs : Option (List String)) (st : St)
    (hnd : FileHandle) (rest : List FileHandle)
    (h1 : shouldUseSimplified
      (env.getFileSystemSchema o.availableFileSystems o.defaultUri) = false)
    (hp : env.openFilePickerResult = hnd :: rest)
    (h2 : shouldUseSimplified (env.getFileSystemSchema afs (some du)) = false)
    (h3 : shouldUseSimplified
      (env.getFileSystemSchema so.availableFileSystems so.defaultUri) = false) :
    ((pickFileAndOpen env g o st).events =
       [Event.showOpenFilePicker false none,
        Event.registerFileHandle (g st.counter) hnd,
        Event.openerOpen { scheme := Schemas.file,
                           path := "/" ++ g st.counter ++ "/" ++ hnd.name }] ∧
     (pickFileAndOpen env g o st).result = Except.ok () ∧
     (pickFileAndOpen env g o st).st.regs =
       st.regs ++ [Reg.fileReg (g st.counter) hnd]) ∧
    ((pickFileToSave env g du afs st).result =
       some { scheme := Schemas.file,
              path := "/" ++ g st.counter ++ "/" ++ env.saveFilePickerResult.name } ∧
     (pickFileToSave env g du afs st).events =
       [Event.showSaveFilePicker (getFilePickerTypes env.getMediaOrTextMime
          (env.getPickFileToSaveDialogOptions du afs).filters),
        Event.registerFileHandle (g st.counter) env.saveFilePickerResult] ∧
     (pickFileToSave env g du afs st).st.regs =
       st.regs ++ [Reg.fileReg (g st.counter) env.saveFilePickerResult]) ∧
    ((showSaveDialog env g so st).result =
       some { scheme := Schemas.file,
              path := "/" ++ g st.counter ++ "/" ++ env.saveFilePickerResult.name } ∧
     (showSaveDialog env g so st).events =
       [Event.showSaveFilePicker (getFilePickerTypes env.getMediaOrTextMime so.filters),
        Event.registerFileHandle (g st.counter) env.saveFilePickerResult] ∧
     (showSaveDialog env g so st).st.regs =
       st.regs ++ [Reg.fileReg (g st.counter) env.saveFilePickerResult]) := by
  have h1' : shouldUseSimplified
      (env.getFileSystemSchema o.availableFileSystems o.defaultUri) ≠ true := by
    simp [h1]
  have h2' : shouldUseSimplified (env.getFileSystemSchema afs (some du)) ≠ true := by
    simp [h2]
  have h3' : shouldUseSimplified
      (env.getFileSystemSchema so.availableFileSystems so.defaultUri) ≠ true := by
    simp [h3]
  refine ⟨?_, ?_, ?_⟩
  · simp [pickFileAndOpen, h1', hp, generateUuid]
  · simp [pickFileToSave, h2', generateUuid]
  · simp [showSaveDialog, h3', generateUuid]

/-- Witness for C1 at the concrete environment env0. -/
theorem nativePathRegistersFreshUuidAndYieldsUriWitness :
    (((pickFileAndOpen env0 gW {} St.init).events =
       [Event.showOpenFilePicker false none,
        Event.registerFileHandle (gW St.init.counter) { name := "picked.txt" },
        Event.openerOpen { scheme := Schemas.file,
                           path := "/" ++ gW St.init.counter ++ "/" ++
                             FileHandle.name { name := "picked.txt" } }] ∧
     (pickFileAndOpen env0 gW {} St.init).result = Except.ok () ∧
     (pickFileAndOpen env0 gW {} St.init).st.regs =
       St.init.regs ++ [Reg.fileReg (gW St.init.counter) { name := "picked.txt" }]) ∧
    ((pickFileToSave env0 gW uW none St.init).result =
       some { scheme := Schemas.file,
              path := "/" ++ gW St.init.counter ++ "/" ++ env0.saveFilePickerResult.name } ∧
     (pickFileToSave env0 gW uW none St.init).events =
       [Event.showSaveFilePicker (getFilePickerTypes env0.getMediaOrTextMime
          (env0.getPickFileToSaveDialogOptions uW none).filters),
        Event.registerFileHandle (gW St.init.counter) env0.saveFilePickerResult] ∧
     (pickFileToSave env0 gW uW none St.init).st.regs =
       St.init.regs ++ [Reg.fileReg (gW St.init.counter) env0.saveFilePickerResult]) ∧
    ((showSaveDialog env0 gW {} St.init).result =
       some { scheme := Schemas.file,
              path := "/" ++ gW St.init.counter ++ "/" ++ env0.saveFilePickerResult.name } ∧
     (showSaveDialog env0 gW {} St.init).events =
       [Event.showSaveFilePicker (getFilePickerTypes env0.getMediaOrTextMime
          ({} : SaveDialogOptions).filters),
        Event.registerFileHandle (gW St.init.counter) env0.saveFilePickerResult] ∧
     (showSaveDialog env0 gW {} St.init).st.regs =
       St.init.regs ++
         [Reg.fileReg (gW St.init.counter) env0.saveFilePickerResult])) :=
  nativePathRegistersFreshUuidAndYieldsUri env0 gW {} {} uW none St.init
    { name := "picked.txt" } [] (by decide) rfl (by decide) (by decide)

/-- C9 counterexample: the class exposes seven public operations, and
pickFileFolderAndOpen falls under none of the five operations the spec
names. -/
theorem publicOperationNotAmongSpecFiveCex :
    specOperationOf PublicOperation.pickFileFolderAndOpen = none ∧
    publicOperations.length = 7 := by
  decide

/-- C9 amended: the class exposes exactly seven public operations; every
one of them except the combined file-or-folder pick falls under one of
the five operations the spec names, with pickFileToSave and
showSaveDialog both classified as save-dialog entry points. -/
theorem publicOperationsSevenAndClassified :
    (∀ op : PublicOperation, op ∈ publicOperations) ∧
    publicOperations.length = 7 ∧
    (∀ op : PublicOperation, op ≠ PublicOperation.pickFileFolderAndOpen →
      (specOperationOf op).isSome = true) := by
  refine ⟨fun op => ?_, rfl, fun op h => ?_⟩
  · cases op <;> simp [publicOperations]
  · cases op <;> simp_all [specOperationOf]

/-- Witness for C9 at the pick-file operation. -/
theorem publicOperationsSevenAndClassifiedWitness :
    (specOperationOf PublicOperation.pickFileAndOpen).isSome = true :=
  publicOperationsSevenAndClassified.2.2 PublicOperation.pickFileAndOpen
    (by decide)

end FileDialog
